import Mathlib

/-!
Verification of the TPS Terraria server core (`src/net/server.py`).

The per-connection protocol step, the readiness pump, the accept loop, the
simulation main loop and the socket setup are embedded as pure Lean functions
producing explicit event traces.  Socket input is supplied as data: the result
of each `recv` call is a parameter, since the network is external to the
program.  External collaborator classes that are imported but not part of this
file (`Message`, `ConnectionManager`, `Timer`) are modelled from the spec where
their behaviour matters, as noted on each definition.
-/

namespace TPS

/-- Modelled from the spec: the external `Message` class (spec section 3:
"Message: a decoded unit = {type: small unsigned tag, payload: opaque byte
sequence}").  `Message(t)` constructs a message of type `t` with empty buffer
and `appendRaw` appends bytes, so `Message(t)` followed by `appendRaw body`
yields `⟨t, body⟩`. -/
structure Message where
  messageType : Nat
  buf : List Nat
deriving DecidableEq, Repr

/-- The lifecycle enum from `server.py` (`class NetworkState`). -/
inductive NetworkState where
  | Starting
  | Running
  | Closing
  | Closed
  | Error
deriving DecidableEq, Repr

/-- Observable effects of the server code, in program order: log calls,
registry removals (`connectionManager.removeConnection`), disconnect notices
(`messageSender.sendPlayerDisconnectedToOtherClients`), dispatches
(`messageHandlerService.processMessage`), hand-offs of a ready socket to the
protocol step, world updates, full-state broadcasts
(`sendWorldUpdateToAllClients`), player syncs (`syncPlayers`), update-timer
restarts and frame-pacing sleeps. -/
inductive Ev where
  | logErr
  | logDbg
  | remove (conn : Nat)
  | discNotice (conn : Nat)
  | dispatch (m : Message) (conn : Nat)
  | protocolStep (sock : Nat)
  | worldUpdate (dt : ℚ)
  | worldBroadcast
  | playerSync
  | resetUpdateTimer
  | sleep (t : ℚ)
deriving DecidableEq, Repr

/-- Result of one `socket.recv(n)` call: either the returned byte string
(possibly shorter than `n`, possibly empty) or a raised exception. -/
inductive RecvResult where
  | ok (bs : List Nat)
  | err
deriving DecidableEq, Repr

/-- `struct.unpack(HEADER_FORMAT, header)[0]` with `HEADER_FORMAT = (lt)i`:
a 4-byte little-endian signed integer.  Only ever applied to byte strings of
length exactly 4 (shorter reads are rejected before unpacking). -/
def unpackInt32LE (bs : List Nat) : Int :=
  let u := bs.getD 0 0 + 256 * bs.getD 1 0 + 65536 * bs.getD 2 0
            + 16777216 * bs.getD 3 0
  if u < 2147483648 then (u : Int) else (u : Int) - 4294967296

def isDispatch : Ev → Bool
  | .dispatch _ _ => true
  | _ => false

def isDiscNotice : Ev → Bool
  | .discNotice _ => true
  | _ => false

def isRemove : Ev → Bool
  | .remove _ => true
  | _ => false

def isProtocolStep : Ev → Bool
  | .protocolStep _ => true
  | _ => false

def isProtoFor (s : Nat) : Ev → Bool
  | .protocolStep x => x == s
  | _ => false

def isWorldUpdate : Ev → Bool
  | .worldUpdate _ => true
  | _ => false

def isWorldBroadcast : Ev → Bool
  | .worldBroadcast => true
  | _ => false

def isPlayerSync : Ev → Bool
  | .playerSync => true
  | _ => false

def isSleep : Ev → Bool
  | .sleep _ => true
  | _ => false

/-- The body of the `try:` block of `__doProtocol(connection)`.
Parameters: `conn` identifies the connection, `r1` is what
`connection.socket.recv(4)` returned, `r2 n` is what
`connection.socket.recv(n)` returns for the decoded length `n`, and
`dispatchRaises m` says whether `processMessage(m, connection)` raises.
Returns the events emitted before leaving the block and whether an exception
was raised (to be caught by the `except` clause).  Mirrors the source
line by line:

* a raised `recv(4)` exits with an exception;
* fewer than 4 header bytes: log, remove the connection, notify the other
  clients, return normally;
* otherwise decode `msgLen`, perform `recv(msgLen)`; a raised `recv` exits
  with an exception;
* `connection.data[0]` on an empty byte string raises `IndexError`;
* otherwise build `Message(data[0])`, `appendRaw(data[1:])`, and call
  `processMessage`, which may itself raise. -/
def doProtocolBody (conn : Nat) (r1 : RecvResult) (r2 : Int → RecvResult)
    (dispatchRaises : Message → Bool) : List Ev × Bool :=
  match r1 with
  | .err => ([], true)
  | .ok header =>
    if header.length < 4 then
      ([.logDbg, .remove conn, .discNotice conn], false)
    else
      let msgLen := unpackInt32LE header
      match r2 msgLen with
      | .err => ([], true)
      | .ok data =>
        match data with
        | [] => ([], true)
        | t :: rest =>
          let m : Message := ⟨t, rest⟩
          ([.dispatch m conn], dispatchRaises m)

/-- `__doProtocol`: the `try:` body wrapped in the
`except Exception as ex: log.error(ex); removeConnection(connection)`
handler.  A raised body is caught: the error is logged and the connection is
removed; a normal body returns its own trace. -/
def doProtocol (conn : Nat) (r1 : RecvResult) (r2 : Int → RecvResult)
    (dispatchRaises : Message → Bool) : List Ev :=
  match doProtocolBody conn r1 r2 dispatchRaises with
  | (tr, true) => tr ++ [.logErr, .remove conn]
  | (tr, false) => tr

/-- C1: for every inbound frame whose 4-byte little-endian length prefix
decodes to `L ≥ 1` and whose payload of `L` bytes is fully received,
`__doProtocol` dispatches exactly one message, whose type is the first payload
byte and whose body is the remaining `L - 1` bytes, to `processMessage` with
the originating connection. -/
theorem c1_frame_decode_dispatch
    (conn : Nat) (header payload : List Nat) (r2 : Int → RecvResult)
    (dispatchRaises : Message → Bool)
    (hlen : header.length = 4)
    (hL : 1 ≤ unpackInt32LE header)
    (hr2 : r2 (unpackInt32LE header) = .ok payload)
    (hp : (payload.length : Int) = unpackInt32LE header) :
    (doProtocol conn (.ok header) r2 dispatchRaises).filter isDispatch
        = [Ev.dispatch ⟨payload.headD 0, payload.tail⟩ conn]
      ∧ (payload.tail.length : Int) = unpackInt32LE header - 1 := by
  obtain ⟨t, rest, rfl⟩ : ∃ t rest, payload = t :: rest := by
    cases payload with
    | nil => simp at hp; omega
    | cons t rest => exact ⟨t, rest, rfl⟩
  constructor
  · have h4 : ¬ header.length < 4 := by omega
    cases hdr : dispatchRaises ⟨t, rest⟩ <;>
      simp [doProtocol, doProtocolBody, h4, hr2, hdr, isDispatch]
  · simp only [List.length_cons, List.tail_cons] at hp ⊢
    push_cast at hp ⊢
    omega

/-- Witness for C1, the spec scenario: bytes
`\x05\x00\x00\x00\x01\xAA\xBB\xCC\xDD` decode to length 5 and yield
`Message{type = 1, body = [0xAA, 0xBB, 0xCC, 0xDD]}`, dispatched with the
sending connection. -/
theorem c1_frame_decode_dispatch_witness :
    ([5, 0, 0, 0] : List Nat).length = 4
    ∧ 1 ≤ unpackInt32LE [5, 0, 0, 0]
    ∧ (([1, 170, 187, 204, 221] : List Nat).length : Int)
        = unpackInt32LE [5, 0, 0, 0]
    ∧ (doProtocol 0 (.ok [5, 0, 0, 0])
          (fun _ => .ok [1, 170, 187, 204, 221]) (fun _ => false)).filter
          isDispatch
        = [Ev.dispatch ⟨1, [170, 187, 204, 221]⟩ 0] :=
  ⟨by decide, by decide, by decide,
    (c1_frame_decode_dispatch 0 [5, 0, 0, 0] [1, 170, 187, 204, 221]
      (fun _ => .ok [1, 170, 187, 204, 221]) (fun _ => false)
      (by decide) (by decide) rfl (by decide)).1⟩

/-- C2 counterexample: a connection delivering a complete 4-byte header with
length prefix `L = 5` but zero body bytes (peer closed before the payload) is
handled by the exception path: it is removed once, but no disconnect notice is
broadcast, refuting the claim that exactly one disconnect notice is broadcast
whenever fewer than `L` body bytes arrive. -/
theorem c2_short_body_counterexample :
    doProtocol 0 (.ok [5, 0, 0, 0]) (fun _ => .ok []) (fun _ => false)
        = [Ev.logErr, Ev.remove 0]
      ∧ ¬ (doProtocol 0 (.ok [5, 0, 0, 0]) (fun _ => .ok [])
            (fun _ => false)).countP isDiscNotice = 1 := by
  decide

/-- C2 as amended: a connection delivering fewer than 4 header bytes is
removed exactly once, exactly one disconnect notice is broadcast and nothing
is dispatched; a connection delivering a full header but zero body bytes is
removed exactly once with no disconnect notice and no dispatch; a connection
delivering a full header and a non-empty (possibly truncated) body has the
received bytes dispatched as a message, with no removal and no disconnect
notice, provided the dispatcher does not raise. -/
theorem c2_short_read_amended
    (conn : Nat) (header payload : List Nat) (r2 : Int → RecvResult)
    (dispatchRaises : Message → Bool) :
    (header.length < 4 →
        doProtocol conn (.ok header) r2 dispatchRaises
          = [Ev.logDbg, Ev.remove conn, Ev.discNotice conn])
      ∧ (header.length = 4 → r2 (unpackInt32LE header) = .ok [] →
          doProtocol conn (.ok header) r2 dispatchRaises
            = [Ev.logErr, Ev.remove conn])
      ∧ (header.length = 4 → r2 (unpackInt32LE header) = .ok payload →
          payload ≠ [] →
          dispatchRaises ⟨payload.headD 0, payload.tail⟩ = false →
          doProtocol conn (.ok header) r2 dispatchRaises
            = [Ev.dispatch ⟨payload.headD 0, payload.tail⟩ conn]) := by
  refine ⟨fun h => ?_, fun h4 hr => ?_, fun h4 hr hne hdr => ?_⟩
  · simp [doProtocol, doProtocolBody, h]
  · have h4n : ¬ header.length < 4 := by omega
    simp [doProtocol, doProtocolBody, h4n, hr]
  · obtain ⟨t, rest, rfl⟩ : ∃ t rest, payload = t :: rest := by
      cases payload with
      | nil => exact absurd rfl hne
      | cons t rest => exact ⟨t, rest, rfl⟩
    have h4n : ¬ header.length < 4 := by omega
    simp only [List.headD_cons, List.tail_cons] at hdr
    simp [doProtocol, doProtocolBody, h4n, hr, hdr]

/-- Witness for C2's amended statement: a 2-byte header gives removal plus
disconnect notice; a full header `L = 5` with empty body gives removal only;
a full header `L = 5` with 2 body bytes gives a truncated dispatch. -/
theorem c2_short_read_amended_witness :
    (([7, 7] : List Nat).length < 4
      ∧ doProtocol 0 (.ok [7, 7]) (fun _ => .ok []) (fun _ => false)
          = [Ev.logDbg, Ev.remove 0, Ev.discNotice 0])
    ∧ (doProtocol 0 (.ok [5, 0, 0, 0]) (fun _ => .ok []) (fun _ => false)
          = [Ev.logErr, Ev.remove 0])
    ∧ (doProtocol 0 (.ok [5, 0, 0, 0]) (fun _ => .ok [1, 2]) (fun _ => false)
          = [Ev.dispatch ⟨1, [2]⟩ 0]) :=
  ⟨⟨by decide,
      (c2_short_read_amended 0 [7, 7] [] (fun _ => .ok [])
        (fun _ => false)).1 (by decide)⟩,
    (c2_short_read_amended 0 [5, 0, 0, 0] [] (fun _ => .ok [])
      (fun _ => false)).2.1 (by decide) rfl,
    (c2_short_read_amended 0 [5, 0, 0, 0] [1, 2] (fun _ => .ok [1, 2])
      (fun _ => false)).2.2 (by decide) rfl (by decide) rfl⟩

/-- C3: whenever the body of `__doProtocol` raises (malformed length read,
failed or empty payload read, dispatcher failure), the per-connection handler
catches it: the trace is the partial body trace followed by the logged error
and the removal of that connection, the connection is removed, and the
removal is the last action — nothing propagates out of `__doProtocol`, which
always returns an ordinary trace. -/
theorem c3_exception_caught_and_removed
    (conn : Nat) (r1 : RecvResult) (r2 : Int → RecvResult)
    (dispatchRaises : Message → Bool)
    (hraised : (doProtocolBody conn r1 r2 dispatchRaises).2 = true) :
    doProtocol conn r1 r2 dispatchRaises
        = (doProtocolBody conn r1 r2 dispatchRaises).1
            ++ [Ev.logErr, Ev.remove conn]
      ∧ Ev.remove conn ∈ doProtocol conn r1 r2 dispatchRaises
      ∧ (doProtocol conn r1 r2 dispatchRaises).getLast?
          = some (Ev.remove conn) := by
  have h : doProtocol conn r1 r2 dispatchRaises
      = (doProtocolBody conn r1 r2 dispatchRaises).1
          ++ [Ev.logErr, Ev.remove conn] := by
    unfold doProtocol
    rcases hb : doProtocolBody conn r1 r2 dispatchRaises with ⟨tr, b⟩
    rw [hb] at hraised
    simp only at hraised
    subst hraised
    simp
  refine ⟨h, ?_, ?_⟩
  · rw [h]; simp
  · rw [h, List.getLast?_append_cons]
    rfl

/-- Witness for C3: a raised `recv(4)` (closed socket during the header read)
is caught, logged and followed by removal of the connection. -/
theorem c3_exception_caught_and_removed_witness :
    (doProtocolBody 0 .err (fun _ => .ok []) (fun _ => false)).2 = true
      ∧ Ev.remove 0 ∈ doProtocol 0 .err (fun _ => .ok []) (fun _ => false) :=
  ⟨by decide,
    (c3_exception_caught_and_removed 0 .err (fun _ => .ok [])
      (fun _ => false) (by decide)).2.1⟩

/-- C9: if the 4-byte length prefix decodes to a non-positive `L`, the second
`recv` either raises (`recv(L)` with `L < 0` raises `ValueError`) or returns
an empty byte string (`recv(0)`), whose first-byte access then raises; either
way the exception handler removes the connection, nothing is dispatched and
no disconnect notice is broadcast. -/
theorem c9_nonpositive_length_removed_silently
    (conn : Nat) (header : List Nat) (r2 : Int → RecvResult)
    (dispatchRaises : Message → Bool)
    (hlen : header.length = 4)
    (hL : unpackInt32LE header ≤ 0)
    (hsem : ∀ n : Int, n ≤ 0 → r2 n = .err ∨ r2 n = .ok []) :
    doProtocol conn (.ok header) r2 dispatchRaises
      = [Ev.logErr, Ev.remove conn] := by
  have h4n : ¬ header.length < 4 := by omega
  rcases hsem (unpackInt32LE header) hL with h | h <;>
    simp [doProtocol, doProtocolBody, h4n, h]

/-- Witness for C9: the header `\xFF\xFF\xFF\xFF` decodes to `L = -1`; with
`recv` raising on a negative size, the connection is removed with no dispatch
and no disconnect notice. -/
theorem c9_nonpositive_length_removed_silently_witness :
    ([255, 255, 255, 255] : List Nat).length = 4
      ∧ unpackInt32LE [255, 255, 255, 255] ≤ 0
      ∧ doProtocol 0 (.ok [255, 255, 255, 255]) (fun _ => .err)
          (fun _ => false) = [Ev.logErr, Ev.remove 0] :=
  ⟨by decide, by decide,
    c9_nonpositive_length_removed_silently 0 [255, 255, 255, 255]
      (fun _ => .err) (fun _ => false) (by decide) (by decide)
      (fun _ _ => Or.inl rfl)⟩

/-- One iteration of the `while` body of `__readThread`, given the two lists
returned by `select.select(socketList, [], socketList, 0.1)`: first every
socket of the error list is removed from the registry
(`removeConnection(findConnection(serr))`), then every socket of the
read-ready list is handed to the protocol step
(`__doProtocol(findConnection(s))`, abstracted here as the hand-off event
`protocolStep`). -/
def readIteration (errSocks readSocks : List Nat) : List Ev :=
  errSocks.map Ev.remove ++ readSocks.map Ev.protocolStep

/-- C4: in one readiness-pump iteration, every socket of the error set is
removed from the registry, every removal precedes every hand-off of a
read-ready socket to the protocol step, each ready socket is handed to the
protocol step at most once (the select result lists sockets without
duplicates), and an error socket that is not also read-ready receives no
protocol processing at all. -/
theorem c4_error_set_before_read_set
    (errSocks readSocks : List Nat) (hnd : readSocks.Nodup) :
    (∀ s ∈ errSocks, Ev.remove s ∈ readIteration errSocks readSocks)
      ∧ (∀ (i j : Nat) (hi : i < (readIteration errSocks readSocks).length)
            (hj : j < (readIteration errSocks readSocks).length),
          isRemove ((readIteration errSocks readSocks).get ⟨i, hi⟩) = true →
          isProtocolStep ((readIteration errSocks readSocks).get ⟨j, hj⟩)
              = true →
          i < j)
      ∧ (∀ s : Nat,
          (readIteration errSocks readSocks).countP (isProtoFor s) ≤ 1)
      ∧ (∀ s ∈ errSocks, s ∉ readSocks →
          (readIteration errSocks readSocks).countP (isProtoFor s) = 0) := by
  have hlow : ∀ (k : Nat) (hk : k < (readIteration errSocks readSocks).length),
      k < errSocks.length →
      isProtocolStep ((readIteration errSocks readSocks).get ⟨k, hk⟩)
        = false := by
    intro k hk hlt
    rw [List.get_eq_getElem]
    unfold readIteration
    rw [List.getElem_append_left (by simpa using hlt)]
    simp [isProtocolStep]
  have hhigh : ∀ (k : Nat) (hk : k < (readIteration errSocks readSocks).length),
      errSocks.length ≤ k →
      isRemove ((readIteration errSocks readSocks).get ⟨k, hk⟩) = false := by
    intro k hk hge
    rw [List.get_eq_getElem]
    unfold readIteration
    rw [List.getElem_append_right (by simpa using hge)]
    simp [isRemove]
  refine ⟨?_, ?_, ?_, ?_⟩
  · intro s hs
    exact List.mem_append_left _ (List.mem_map_of_mem Ev.remove hs)
  · intro i j hi hj hri hpj
    have h1 : i < errSocks.length := by
      by_contra hge
      push_neg at hge
      rw [hhigh i hi hge] at hri
      exact Bool.false_ne_true hri
    have h2 : errSocks.length ≤ j := by
      by_contra hlt
      push_neg at hlt
      rw [hlow j hj hlt] at hpj
      exact Bool.false_ne_true hpj
    omega
  · intro s
    have h0 : (errSocks.map Ev.remove).countP (isProtoFor s) = 0 := by
      rw [List.countP_map]
      exact List.countP_eq_zero.mpr (fun a _ => by simp [Function.comp, isProtoFor])
    have h1 : (readSocks.map Ev.protocolStep).countP (isProtoFor s)
        = readSocks.count s := by
      rw [List.countP_map]
      rfl
    unfold readIteration
    rw [List.countP_append, h0, h1]
    simpa using List.nodup_iff_count_le_one.mp hnd s
  · intro s hse hsr
    have h0 : (errSocks.map Ev.remove).countP (isProtoFor s) = 0 := by
      rw [List.countP_map]
      exact List.countP_eq_zero.mpr (fun a _ => by simp [Function.comp, isProtoFor])
    have h1 : (readSocks.map Ev.protocolStep).countP (isProtoFor s)
        = readSocks.count s := by
      rw [List.countP_map]
      rfl
    unfold readIteration
    rw [List.countP_append, h0, h1, List.count_eq_zero_of_not_mem hsr]

/-- Witness for C4: error set `{5}` and read-ready set `{6, 7}`. -/
theorem c4_error_set_before_read_set_witness :
    ([6, 7] : List Nat).Nodup
      ∧ ((∀ s ∈ ([5] : List Nat), Ev.remove s ∈ readIteration [5] [6, 7])
          ∧ (∀ (i j : Nat) (hi : i < (readIteration [5] [6, 7]).length)
                (hj : j < (readIteration [5] [6, 7]).length),
              isRemove ((readIteration [5] [6, 7]).get ⟨i, hi⟩) = true →
              isProtocolStep ((readIteration [5] [6, 7]).get ⟨j, hj⟩) = true →
              i < j)
          ∧ (∀ s : Nat, (readIteration [5] [6, 7]).countP (isProtoFor s) ≤ 1)
          ∧ (∀ s ∈ ([5] : List Nat), s ∉ ([6, 7] : List Nat) →
              (readIteration [5] [6, 7]).countP (isProtoFor s) = 0)) :=
  ⟨by decide, c4_error_set_before_read_set [5] [6, 7] (by decide)⟩

/-- `FPS = 60` from `server.py`, as a rational since it only enters the
floating-point frame-budget arithmetic `1000.0 / FPS`. -/
def FPS : ℚ := 60

/-- One iteration of the `while self.isRunning` body of `__mainLoop`, given
`u`, the reading `self.updateTimer.getTicks()` taken at the sync check, and
`f`, the reading `self.fpsTimer.getTicks()` taken at the pacing check (the
`Timer` collaborator is external — modelled from the spec as a monotonic
elapsed-time measurement, so its readings enter as parameters).  The body:
`world.update(1.0)`; if `u > 3600.0`, send the world update to all clients,
sync the players and restart the update timer; if `f < 1000.0 / FPS`, sleep
for `((1000.0 / FPS) - f) / 1000.0`. -/
def mainLoopIter (u f : ℚ) : List Ev :=
  [Ev.worldUpdate 1]
    ++ (if u > 3600 then
          [Ev.worldBroadcast, Ev.playerSync, Ev.resetUpdateTimer] else [])
    ++ (if f < 1000 / FPS then [Ev.sleep ((1000 / FPS - f) / 1000)] else [])

/-- C5: in every main-loop iteration, if the update timer measured since the
last full sync exceeds 3600, exactly one full world-state broadcast and
exactly one player-sync broadcast are sent and the sync timer is restarted;
otherwise none of the three happens. -/
theorem c5_full_sync_threshold (u f : ℚ) :
    (u > 3600 →
        (mainLoopIter u f).countP isWorldBroadcast = 1
          ∧ (mainLoopIter u f).countP isPlayerSync = 1
          ∧ Ev.resetUpdateTimer ∈ mainLoopIter u f)
      ∧ (¬ u > 3600 →
        (mainLoopIter u f).countP isWorldBroadcast = 0
          ∧ (mainLoopIter u f).countP isPlayerSync = 0
          ∧ Ev.resetUpdateTimer ∉ mainLoopIter u f) := by
  constructor <;> intro h <;>
    rcases lt_or_le f (1000 / FPS) with hf | hf <;>
      simp [mainLoopIter, h, hf, List.countP_cons, List.countP_nil,
        isWorldBroadcast, isPlayerSync]

/-- Witness for C5: with the update timer at 3601 the iteration broadcasts
once and resets; with the timer at 3600 (not exceeded) it does not. -/
theorem c5_full_sync_threshold_witness :
    ((3601 : ℚ) > 3600
        ∧ (mainLoopIter 3601 20).countP isWorldBroadcast = 1
        ∧ (mainLoopIter 3601 20).countP isPlayerSync = 1
        ∧ Ev.resetUpdateTimer ∈ mainLoopIter 3601 20)
      ∧ (¬ (3600 : ℚ) > 3600
        ∧ (mainLoopIter 3600 20).countP isWorldBroadcast = 0
        ∧ (mainLoopIter 3600 20).countP isPlayerSync = 0
        ∧ Ev.resetUpdateTimer ∉ mainLoopIter 3600 20) :=
  ⟨⟨by norm_num, (c5_full_sync_threshold 3601 20).1 (by norm_num)⟩,
    ⟨by norm_num, (c5_full_sync_threshold 3600 20).2 (by norm_num)⟩⟩

/-- C6: in every main-loop iteration, if the tick work measured by the fps
timer is below the per-tick budget `1000 / FPS` (with `FPS = 60`), the loop
sleeps exactly once, for `((1000 / FPS) - f) / 1000`; if the work took at
least the full budget, no sleep occurs. -/
theorem c6_frame_pacing (u f : ℚ) :
    (f < 1000 / FPS →
        (mainLoopIter u f).filter isSleep
          = [Ev.sleep ((1000 / FPS - f) / 1000)])
      ∧ (1000 / FPS ≤ f → (mainLoopIter u f).filter isSleep = []) := by
  constructor <;> intro h <;>
    rcases lt_or_le (3600 : ℚ) u with hu | hu <;>
      simp [mainLoopIter, h, hu, not_lt.mpr, not_lt.mp, lt_irrefl,
        isSleep, isWorldBroadcast, List.filter,
        show ¬ (1000 / FPS ≤ f) ↔ f < 1000 / FPS from not_le]

/-- Witness for C6: an iteration whose tick work measured 10 sleeps for
`(1000 / 60 - 10) / 1000 = 1 / 150`; one whose work measured `1000 / 60`
does not sleep. -/
theorem c6_frame_pacing_witness :
    ((10 : ℚ) < 1000 / FPS
        ∧ (mainLoopIter 0 10).filter isSleep
            = [Ev.sleep ((1000 / FPS - 10) / 1000)])
      ∧ ((1000 / FPS : ℚ) ≤ 1000 / FPS
        ∧ (mainLoopIter 0 (1000 / FPS)).filter isSleep = []) :=
  ⟨⟨by norm_num [FPS], (c6_frame_pacing 0 10).1 (by norm_num [FPS])⟩,
    ⟨le_refl _, (c6_frame_pacing 0 (1000 / FPS)).2 (le_refl _)⟩⟩

/-- `__setupSocket`: create the TCP socket, bind it and listen; on success
the last statement sets `networkState = NetworkState.Running`, and the
`except` clause of any failure logs and sets `networkState =
NetworkState.Error`.  `bindOk` says whether the socket calls succeeded. -/
def setupSocket (bindOk : Bool) : NetworkState :=
  if bindOk then NetworkState.Running else NetworkState.Error

/-- The successive values held by `self.networkState` from construction
through completion of `__setupSocket`: `__init__` sets
`NetworkState.Closed`, and the single assignment in `__setupSocket` then
sets the final state.  No other assignment to `networkState` exists in the
source. -/
def setupStates (bindOk : Bool) : List NetworkState :=
  [NetworkState.Closed, setupSocket bindOk]

/-- C7 counterexample: on a bind failure the state sequence is
`[Closed, Error]` — the claimed intermediate transition `Closed → Starting`
never happens, because `__setupSocket` never assigns
`NetworkState.Starting`. -/
theorem c7_starting_never_entered_counterexample :
    setupStates false = [NetworkState.Closed, NetworkState.Error]
      ∧ (setupStates false).all
          (fun s => !(decide (s = NetworkState.Starting))) = true := by
  decide

/-- C7 as amended: the bind attempt transitions `Closed` directly to
`Running` on success and directly to `Error` on failure; in particular a
bind/listen failure leaves `NetworkState` equal to `Error`, the `Starting`
state is never entered, and every state reached by the socket-setup
operation is one of `Closed`, `Running`, `Error`. -/
theorem c7_lifecycle_amended :
    ∀ b : Bool,
      setupSocket true = NetworkState.Running
        ∧ setupSocket false = NetworkState.Error
        ∧ (setupStates b).all
            (fun s => !(decide (s = NetworkState.Starting))) = true
        ∧ (setupStates b).all
            (fun s => decide (s = NetworkState.Closed)
              || decide (s = NetworkState.Running)
              || decide (s = NetworkState.Error)) = true := by
  decide

/-- Modelled from the spec: `ConnectionInfo(sock, addr, clientId)` from the
external `connectioninfo` module — the accepted socket, its remote address
and the assigned client number. -/
structure ConnectionInfo where
  sock : Nat
  addr : Nat
  clientNumber : Nat
deriving DecidableEq, Repr

/-- Modelled from the spec: the state of the external `ConnectionManager` —
the registered connections plus the counter behind `getNewClientId()`
("stable integer client id, monotonically assigned, never reused"). -/
structure MgrState where
  conns : List ConnectionInfo
  nextId : Nat
deriving DecidableEq, Repr

/-- Modelled from the spec: `getNewClientId()` returns a fresh id and
advances the counter. -/
def getNewClientId (m : MgrState) : Nat × MgrState :=
  (m.nextId, { m with nextId := m.nextId + 1 })

/-- Modelled from the spec: `addConnection` registers the connection. -/
def addConnection (m : MgrState) (c : ConnectionInfo) : MgrState :=
  { m with conns := m.conns ++ [c] }

/-- The `while self.networkState == NetworkState.Running` test. -/
def runningB : NetworkState → Bool
  | .Running => true
  | _ => false

/-- `__acceptLoop`, driven by a schedule: each element is the value of
`self.networkState` observed at the `while` test together with the
`(clientsock, clientaddr)` pair the blocking `accept` returns in that
iteration.  While the state is Running the loop accepts, builds
`ConnectionInfo(clientsock, clientaddr, getNewClientId())` and passes it to
`addConnection`; at the first non-Running observation the loop exits and the
rest of the schedule is never consumed. -/
def acceptLoop : List (NetworkState × Nat × Nat) → MgrState → MgrState
  | [], m => m
  | (st, sck, adr) :: rest, m =>
    if runningB st then
      let p := getNewClientId m
      acceptLoop rest (addConnection p.2 ⟨sck, adr, p.1⟩)
    else m

/-- The connections built for a run of accepted `(socket, address)` pairs
when the id counter starts at `n`: consecutive fresh client numbers. -/
def assignIds : Nat → List (Nat × Nat) → List ConnectionInfo
  | _, [] => []
  | n, (sck, adr) :: rest => ⟨sck, adr, n⟩ :: assignIds (n + 1) rest

theorem assignIds_map_clientNumber (n : Nat) (ps : List (Nat × Nat)) :
    (assignIds n ps).map ConnectionInfo.clientNumber
      = List.range' n ps.length := by
  induction ps generalizing n with
  | nil => rfl
  | cons p rest ih =>
    rcases p with ⟨sck, adr⟩
    simp [assignIds, ih, List.range'_succ]

/-- C8: the accept loop registers, for each iteration whose `while` test saw
`Running`, exactly the connection holding the accepted socket, its remote
address and a freshly assigned client id, in schedule order with consecutive
counter values; once the observed state is no longer Running nothing further
is registered and the counter stops — so the newly assigned client numbers
are exactly `nextId, nextId + 1, …`, all distinct. -/
theorem c8_accept_registers_fresh_connections
    (sched : List (NetworkState × Nat × Nat)) (m : MgrState) :
    (acceptLoop sched m).conns
        = m.conns
            ++ assignIds m.nextId
              ((sched.takeWhile (fun e => runningB e.1)).map
                (fun e => (e.2.1, e.2.2)))
      ∧ (acceptLoop sched m).nextId
        = m.nextId + (sched.takeWhile (fun e => runningB e.1)).length
      ∧ (((acceptLoop sched m).conns.drop m.conns.length).map
            ConnectionInfo.clientNumber).Nodup := by
  have key : ∀ (sd : List (NetworkState × Nat × Nat)) (st : MgrState),
      (acceptLoop sd st).conns
          = st.conns
              ++ assignIds st.nextId
                ((sd.takeWhile (fun e => runningB e.1)).map
                  (fun e => (e.2.1, e.2.2)))
        ∧ (acceptLoop sd st).nextId
          = st.nextId + (sd.takeWhile (fun e => runningB e.1)).length := by
    intro sd
    induction sd with
    | nil => intro st; simp [acceptLoop, assignIds]
    | cons e rest ih =>
      intro st
      rcases e with ⟨s, sck, adr⟩
      by_cases hst : runningB s
      · have hloop : acceptLoop ((s, sck, adr) :: rest) st
            = acceptLoop rest
                ⟨st.conns ++ [⟨sck, adr, st.nextId⟩], st.nextId + 1⟩ := by
          simp [acceptLoop, hst, getNewClientId, addConnection]
        rw [hloop]
        rcases ih ⟨st.conns ++ [⟨sck, adr, st.nextId⟩], st.nextId + 1⟩
          with ⟨h1, h2⟩
        have htw : List.takeWhile (fun e => runningB e.1)
            ((s, sck, adr) :: rest)
            = (s, sck, adr) :: List.takeWhile (fun e => runningB e.1) rest :=
          List.takeWhile_cons_of_pos (by simpa using hst)
        constructor
        · rw [h1, htw]
          simp [assignIds]
        · rw [h2, htw]
          simp
          omega
      · simp [acceptLoop, hst, List.takeWhile_cons_of_neg, assignIds]
  rcases key sched m with ⟨h1, h2⟩
  refine ⟨h1, h2, ?_⟩
  rw [h1, List.drop_left, assignIds_map_clientNumber]
  exact List.nodup_range' _ _

/-- The `while self.isRunning` loop of `__mainLoop`, run over a window of
iterations whose timer readings are given: each pair holds the
`updateTimer.getTicks()` and `fpsTimer.getTicks()` readings of one
iteration.  (`isRunning` is never set to `False` in the source, so the loop
runs for as many iterations as one cares to observe.) -/
def mainLoopRun : List (ℚ × ℚ) → List Ev
  | [] => []
  | p :: rest => mainLoopIter p.1 p.2 ++ mainLoopRun rest

theorem countP_isWorldUpdate_mainLoopIter (u f : ℚ) :
    (mainLoopIter u f).countP isWorldUpdate = 1 := by
  rcases lt_or_le (3600 : ℚ) u with hu | hu <;>
    rcases lt_or_le f (1000 / FPS) with hf | hf <;>
      simp [mainLoopIter, hu, hf, not_lt.mpr, List.countP_cons,
        List.countP_nil, isWorldUpdate]

/-- The `while self.networkState == NetworkState.Running` loop of
`__readThread`, counting iterations of its body for a given sequence of
observed `networkState` values: the loop body runs once per observation of
`Running` and the loop exits at the first other observation. -/
def readThreadIters (sched : List NetworkState) : Nat :=
  (sched.takeWhile runningB).length

/-- `start()`: runs `__setupSocket`, spawns the read and accept threads,
sets `self.isRunning = True` and unconditionally calls `__mainLoop` — no
statement in between inspects `networkState`.  Returns the network state
left by setup, the `isRunning` flag, and the main-loop trace for the given
iteration readings. -/
def start (bindOk : Bool) (iters : List (ℚ × ℚ)) :
    NetworkState × Bool × List Ev :=
  (setupSocket bindOk, true, mainLoopRun iters)

/-- C10: when socket setup fails, `start()` still sets `isRunning` to true
and enters the simulation main loop: the network state is `Error`, yet
`world.update` is called once per main-loop iteration regardless, while the
read loop performs zero iterations because every observation of
`networkState` is `Error`, not `Running`. -/
theorem c10_start_unconditional_main_loop
    (iters : List (ℚ × ℚ)) (n : Nat) :
    (start false iters).1 = NetworkState.Error
      ∧ (start false iters).2.1 = true
      ∧ ((start false iters).2.2).countP isWorldUpdate = iters.length
      ∧ readThreadIters (List.replicate n NetworkState.Error) = 0 := by
  refine ⟨rfl, rfl, ?_, ?_⟩
  · show (mainLoopRun iters).countP isWorldUpdate = iters.length
    induction iters with
    | nil => simp [mainLoopRun]
    | cons p rest ih =>
      simp [mainLoopRun, List.countP_append, ih,
        countP_isWorldUpdate_mainLoopIter]
      omega
  · cases n with
    | zero => rfl
    | succ k =>
      simp [readThreadIters, List.replicate_succ,
        List.takeWhile_cons_of_neg, runningB]

end TPS
